import Mathlib

set_option linter.unusedVariables false

/-!
Verification development for the Anderson-acceleration wrapper
(`jaxopt/_src/anderson_wrapper.py`).

Modelling choices:
* A structured value ("pytree") is flattened to a single vector of numeric
  leaves, `List ℚ`; all leaf-wise arithmetic is defined over that flat view.
  Rationals stand in for floats: every quantity the claims compare is produced
  by ring operations and division, which ℚ models exactly.
* The wrapped solver is the capability interface the spec demands: `init`,
  `update`, an error-readable opaque state, `optimality_fun`, and the
  configured scalars `maxiter` and `tol`.
* `build_history`, `anderson_step` and `update_history` live in
  `jaxopt/_src/anderson.py`, which is not part of this repository snapshot;
  they are modelled from the spec (their doc comments say so).
* The `tree_l2_norm` primitive is an external collaborator in the spec, so it
  is passed as an explicit function parameter wherever the code uses it.
-/

/-- A flattened structured value: the leaves of a pytree in order. -/
abbrev PyTree : Type := List ℚ

/-- Leaf-wise subtraction (`tree_sub` from `jaxopt._src.tree_util`). -/
def tree_sub (a b : PyTree) : PyTree := List.zipWith (fun x y => x - y) a b

/-- Leaf-wise addition. -/
def tree_add (a b : PyTree) : PyTree := List.zipWith (fun x y => x + y) a b

/-- Scalar multiplication of every leaf. -/
def tree_scalar_mul (c : ℚ) (a : PyTree) : PyTree := a.map (fun x => c * x)

/-- Dot product of two flattened pytrees. -/
def tree_vdot (a b : PyTree) : ℚ := (List.zipWith (fun x y => x * y) a b).sum

/-- The zero pytree of the same flat shape as `a`. -/
def tree_zero_like (a : PyTree) : PyTree := a.map (fun _ => (0 : ℚ))

/-- Determinant of a list-of-rows matrix by Laplace expansion along the first
row; the fuel argument bounds the recursion by the row count. -/
def detAux : ℕ → List (List ℚ) → ℚ
  | 0, _ => 1
  | _ + 1, [] => 1
  | n + 1, r :: rs =>
      ((List.range r.length).map (fun j =>
        (-1 : ℚ) ^ j * r.getD j 0 * detAux n (rs.map (fun row => row.eraseIdx j)))).sum

/-- Determinant of a list-of-rows matrix. -/
def detL (rows : List (List ℚ)) : ℚ := detAux rows.length rows

/-- Replace column `j` of matrix `a` by the vector `b`. -/
def replaceCol (a : List (List ℚ)) (j : ℕ) (b : List ℚ) : List (List ℚ) :=
  List.zipWith (fun row bi => row.set j bi) a b

/-- Solve the square linear system `a · x = b` by Cramer's rule (the unique
solution when `a` is nonsingular; junk values otherwise, mirroring the NaN
propagation the spec describes for a singular solve). -/
def solveLin (a : List (List ℚ)) (b : List ℚ) : List ℚ :=
  (List.range a.length).map (fun j => detL (replaceCol a j b) / detL a)

/-- `g + ridge · I` for a square list-of-rows matrix `g`. -/
def addRidgeI (g : List (List ℚ)) (ridge : ℚ) : List (List ℚ) :=
  (List.range g.length).map (fun i => (List.range g.length).map (fun j =>
    (g.getD i []).getD j 0 + (if i = j then ridge else 0)))

/-- `Σ i, ws[i] · xs[i]` over pytrees (pairs beyond the shorter list ignored). -/
def tree_weighted_sum (ws : List ℚ) (xs : List PyTree) : PyTree :=
  (ws.zip xs).foldr (fun wx acc => tree_add (tree_scalar_mul wx.1 wx.2) acc)
    (tree_zero_like (xs.headD []))

/-- Modelled from the spec: `build_history` of `jaxopt._src.anderson`, which is
not under src/. Given the `history_size+1` iterates of the cold warm-up run, it
keeps them as `params_history`, forms `residuals_history` with
`residual i = history[i+1] - history[i]` (one-step output minus input), and
computes the full Gram matrix of residual dot products from scratch. -/
def build_history (history : List PyTree) :
    List PyTree × List PyTree × List (List ℚ) :=
  let params_history := history
  let residuals_history := List.zipWith tree_sub history.tail history
  let m := residuals_history.length
  let residual_gram := (List.range m).map (fun i => (List.range m).map (fun j =>
    tree_vdot (residuals_history.getD i []) (residuals_history.getD j [])))
  (params_history, residuals_history, residual_gram)

/-- Modelled from the spec: `update_history` of `jaxopt._src.anderson`, which
is not under src/. Overwrites the circular slot `pos` with the new iterate and
residual, recomputes only the Gram row/column `pos` against the stored
residuals (self-term = squared norm of the new residual), leaves every other
entry untouched, and returns the new error = `tree_l2_norm` of the new
residual. -/
def update_history (tree_l2_norm : PyTree → ℚ) (pos : ℕ)
    (params_history residuals_history : List PyTree)
    (residual_gram : List (List ℚ)) (new_param new_residual : PyTree) :
    List PyTree × List PyTree × List (List ℚ) × ℚ :=
  let ph := params_history.set pos new_param
  let rh := residuals_history.set pos new_residual
  let m := residuals_history.length
  let gram := (List.range m).map (fun i => (List.range m).map (fun j =>
    if i = pos ∨ j = pos then tree_vdot (rh.getD i []) (rh.getD j [])
    else (residual_gram.getD i []).getD j 0))
  (ph, rh, gram, tree_l2_norm new_residual)

/-- Modelled from the spec: `anderson_step` of `jaxopt._src.anderson`, which is
not under src/. Solves the regularized normal equations
`(G + ridge·I) α = 1`, normalizes `α` to sum 1, and returns
`(1-β)·Σ αᵢ·params[i] + β·Σ αᵢ·(params[i]+residuals[i])`. -/
def anderson_step (params_history residuals_history : List PyTree)
    (residual_gram : List (List ℚ)) (ridge beta : ℚ) : PyTree :=
  let m := residuals_history.length
  let g := addRidgeI residual_gram ridge
  let alpha0 := solveLin g (List.replicate m (1 : ℚ))
  let s := alpha0.sum
  let alpha := alpha0.map (fun x => x / s)
  let mixed_params := tree_weighted_sum alpha params_history
  let mixed_updated :=
    tree_weighted_sum alpha (List.zipWith tree_add params_history residuals_history)
  tree_add (tree_scalar_mul (1 - beta) mixed_params) (tree_scalar_mul beta mixed_updated)

/-- The wrapped-solver contract of `jaxopt._src.base.IterativeSolver`, the
capability set the spec requires: `init`, `update`, an error-readable state
(`error` reads the `.error` attribute of the opaque state), `optimality_fun`,
and the configured scalars `maxiter` and `tol`. `A` is the type of the extra
arguments (`*args, **kwargs`), passed through unchanged; `S` the opaque solver
state; `O` the value of `optimality_fun`. -/
structure IterativeSolver (A S O : Type) where
  init : PyTree → A → PyTree × S
  update : PyTree → S → A → PyTree × S
  error : S → ℚ
  optimality_fun : PyTree → A → O
  maxiter : ℤ
  tol : ℚ

/-- `AndersonWrapperState` (a NamedTuple in the source). -/
structure AndersonWrapperState (S : Type) where
  iter_num : ℕ
  solver_state : S
  error : ℚ
  params_history : List PyTree
  residuals_history : List PyTree
  residual_gram : List (List ℚ)

/-- `AndersonWrapper` after construction: the wrapped solver, the
configuration fields that affect the numerics, and the `maxiter`/`tol`
attributes that `__post_init__` sets. (`verbose`, `implicit_diff`,
`implicit_diff_solve`, `jit`, `unroll` have no effect on the values computed
and are omitted.) -/
structure AndersonWrapper (A S O : Type) where
  solver : IterativeSolver A S O
  history_size : ℕ
  beta : ℚ
  ridge : ℚ
  maxiter : ℤ
  tol : ℚ

variable {A S O : Type}

/-- Construction (`dataclass` fields then `__post_init__`): sets
`maxiter = solver.maxiter - history_size`, raises `ValueError` when that is
negative, and copies `tol` from the wrapped solver. -/
def AndersonWrapper.post_init (solver : IterativeSolver A S O)
    (history_size : ℕ) (beta ridge : ℚ) :
    Except String (AndersonWrapper A S O) :=
  let maxiter : ℤ := solver.maxiter - history_size
  if maxiter < 0 then
    Except.error
      "Ensure maxiter is greater than history_size otherwise acceleration is impossible."
  else
    Except.ok { solver := solver, history_size := history_size, beta := beta,
                ridge := ridge, maxiter := maxiter, tol := solver.tol }

/-- `AndersonWrapper.init`: run the wrapped solver's `init` on the initial
guess, then its `update` `history_size` times, appending each iterate to the
collected history; build the rolling window with `build_history`; return the
last iterate and a state with `iter_num = 0`. Direct translation of the
source's `for` loop as a fold. -/
def AndersonWrapper.init (aw : AndersonWrapper A S O) (init_params : PyTree)
    (args : A) : PyTree × AndersonWrapperState S :=
  let ps0 := aw.solver.init init_params args
  let r := (List.range aw.history_size).foldl
    (fun acc2 _ => (aw.solver.update acc2.1.1 acc2.1.2 args,
      acc2.2 ++ [(aw.solver.update acc2.1.1 acc2.1.2 args).1]))
    (ps0, [ps0.1])
  let bh := build_history r.2
  let solver_state := r.1.2
  (r.1.1,
   { iter_num := 0
     solver_state := solver_state
     error := aw.solver.error solver_state
     params_history := bh.1
     residuals_history := bh.2.1
     residual_gram := bh.2.2 })

/-- `AndersonWrapper.update`: one accelerated step, translated line by line
from the source. `params` is deleted (`del params`); the extrapolated point is
rebound to the output of the inner solver's `init`; the new state's `error`
field is assigned `solver_state.error` (the error returned by `update_history`
is computed and discarded, as in the source). -/
def AndersonWrapper.update (tree_l2_norm : PyTree → ℚ)
    (aw : AndersonWrapper A S O) (params : PyTree)
    (state : AndersonWrapperState S) (args : A) :
    PyTree × AndersonWrapperState S :=
  let params_history := state.params_history
  let residuals_history := state.residuals_history
  let residual_gram := state.residual_gram
  let pos := state.iter_num % aw.history_size
  let extrapolated0 :=
    anderson_step params_history residuals_history residual_gram aw.ridge aw.beta
  let s1 := aw.solver.init extrapolated0 args
  let extrapolated := s1.1
  let s2 := aw.solver.update extrapolated s1.2 args
  let next_params := s2.1
  let solver_state := s2.2
  let residual := tree_sub next_params extrapolated
  let ret := update_history tree_l2_norm pos params_history residuals_history
    residual_gram extrapolated residual
  (next_params,
   { iter_num := state.iter_num + 1
     solver_state := solver_state
     error := aw.solver.error solver_state
     params_history := ret.1
     residuals_history := ret.2.1
     residual_gram := ret.2.2.1 })

/-- `AndersonWrapper.optimality_fun`: delegates to the wrapped solver. -/
def AndersonWrapper.optimality_fun (aw : AndersonWrapper A S O)
    (params : PyTree) (args : A) : O :=
  aw.solver.optimality_fun params args

/-- Spec-side description of the warm-up loop (section 4.4 `init`): starting
from point `p` with inner state `s`, perform `n` calls to the wrapped solver's
`update`, collecting every intermediate iterate (the start point included, so
`n+1` iterates in order), and return the trace together with the final
point/state pair. -/
def run_updates (solver : IterativeSolver A S O) (args : A) :
    ℕ → PyTree → S → List PyTree × (PyTree × S)
  | 0, p, s => ([p], (p, s))
  | n + 1, p, s =>
      let next := solver.update p s args
      let rest := run_updates solver args n next.1 next.2
      (p :: rest.1, rest.2)

/-- Spec-side description of `init` (section 4.4): call the wrapped solver's
`init` exactly once on the initial guess, run `history_size` warm-up updates
collecting each iterate, build the history via the cold-start `build_history`
path, and return the most recent warmed-up iterate with `iteration = 0`. -/
def AndersonWrapper.init_spec (aw : AndersonWrapper A S O) (init_params : PyTree)
    (args : A) : PyTree × AndersonWrapperState S :=
  let ps0 := aw.solver.init init_params args
  let r := run_updates aw.solver args aw.history_size ps0.1 ps0.2
  let bh := build_history r.1
  (r.2.1,
   { iter_num := 0
     solver_state := r.2.2
     error := aw.solver.error r.2.2
     params_history := bh.1
     residuals_history := bh.2.1
     residual_gram := bh.2.2 })

/-- The claim C4 step sequence read literally: the residual is
`next_point − extrapolated` and `update_history` receives `extrapolated`,
where `extrapolated` is the raw output of the Anderson step (not the point
returned by the inner solver's `init`). Differs from the code whenever the
wrapped solver's `init` moves its input point. -/
def AndersonWrapper.update_literal (tree_l2_norm : PyTree → ℚ)
    (aw : AndersonWrapper A S O) (params : PyTree)
    (state : AndersonWrapperState S) (args : A) :
    PyTree × AndersonWrapperState S :=
  let pos := state.iter_num % aw.history_size
  let extrapolated := anderson_step state.params_history state.residuals_history
    state.residual_gram aw.ridge aw.beta
  let s1 := aw.solver.init extrapolated args
  let s2 := aw.solver.update s1.1 s1.2 args
  let next_params := s2.1
  let solver_state := s2.2
  let residual := tree_sub next_params extrapolated
  let ret := update_history tree_l2_norm pos state.params_history
    state.residuals_history state.residual_gram extrapolated residual
  (next_params,
   { iter_num := state.iter_num + 1
     solver_state := solver_state
     error := aw.solver.error solver_state
     params_history := ret.1
     residuals_history := ret.2.1
     residual_gram := ret.2.2.1 })

/-- The Anderson-extrapolated point computed by `update` from a state. -/
def extrapolated_of (aw : AndersonWrapper A S O) (st : AndersonWrapperState S) :
    PyTree :=
  anderson_step st.params_history st.residuals_history st.residual_gram
    aw.ridge aw.beta

/-- The wrapped solver's `init` applied to the Anderson-extrapolated point
(the point `update` rebinds `extrapolated` to, with the fresh inner state). -/
def adapter_init (aw : AndersonWrapper A S O) (st : AndersonWrapperState S)
    (args : A) : PyTree × S :=
  aw.solver.init (extrapolated_of aw st) args

/-- The single wrapped-solver iteration `update` performs: `update` applied to
the output of `adapter_init` (next point and fresh inner state). -/
def adapter_next (aw : AndersonWrapper A S O) (st : AndersonWrapperState S)
    (args : A) : PyTree × S :=
  aw.solver.update (adapter_init aw st args).1 (adapter_init aw st args).2 args

/-- The states the wrapper can actually be in: the state `init` returns,
followed by any number of `update` calls. -/
inductive Reachable (tree_l2_norm : PyTree → ℚ) (aw : AndersonWrapper A S O)
    (args : A) : AndersonWrapperState S → Prop where
  | init (ip : PyTree) :
      Reachable tree_l2_norm aw args (AndersonWrapper.init aw ip args).2
  | step (p : PyTree) (st : AndersonWrapperState S) :
      Reachable tree_l2_norm aw args st →
      Reachable tree_l2_norm aw args
        (AndersonWrapper.update tree_l2_norm aw p st args).2

/-- A concrete stand-in for the external `tree_l2_norm` collaborator: the sum
of leaf absolute values (any norm works; the claims compare values, not the
particular norm). -/
def norm1 : PyTree → ℚ := fun v => (v.map (fun x => if x < 0 then -x else x)).sum

/-- A concrete wrapped solver: `init` returns its input, one `update` halves
the point, and the inner state's error signal is constantly `5`. -/
def solverHalf : IterativeSolver Unit ℚ ℚ :=
  { init := fun p _ => (p, 0)
    update := fun p _ _ => (tree_scalar_mul (1 / 2) p, 5)
    error := fun s => s
    optimality_fun := fun p _ => p.headD 0
    maxiter := 10
    tol := 0 }

/-- A concrete wrapper around `solverHalf` with `history_size = 1`,
`beta = 1`, `ridge = 1`. -/
def awHalf : AndersonWrapper Unit ℚ ℚ :=
  { solver := solverHalf, history_size := 1, beta := 1, ridge := 1,
    maxiter := 9, tol := 0 }

/-- A concrete `AndersonWrapperState` for `awHalf`. -/
def stHalf : AndersonWrapperState ℚ :=
  { iter_num := 0, solver_state := 0, error := 0
    params_history := [[1], [2]], residuals_history := [[1]],
    residual_gram := [[1]] }

/-- A concrete wrapped solver whose `init` moves its input point (adds 1 to
the leaf) and whose `update` is the identity. -/
def solverShift : IterativeSolver Unit ℚ ℚ :=
  { init := fun p _ => (tree_add p [1], 0)
    update := fun p s _ => (p, s)
    error := fun s => s
    optimality_fun := fun p _ => p.headD 0
    maxiter := 10
    tol := 0 }

/-- A concrete wrapper around `solverShift` with `history_size = 1`. -/
def awShift : AndersonWrapper Unit ℚ ℚ :=
  { solver := solverShift, history_size := 1, beta := 1, ridge := 1,
    maxiter := 9, tol := 0 }

/-- A concrete `AndersonWrapperState` for `awShift`. -/
def stShift : AndersonWrapperState ℚ :=
  { iter_num := 0, solver_state := 0, error := 0
    params_history := [[1], [10]], residuals_history := [[1]],
    residual_gram := [[1]] }

/-- A concrete wrapped solver with `maxiter = 3` (for construction claims). -/
def solverBudget3 : IterativeSolver Unit ℚ ℚ :=
  { init := fun p _ => (p, 0)
    update := fun p s _ => (p, s)
    error := fun s => s
    optimality_fun := fun p _ => p.headD 0
    maxiter := 3
    tol := 1 / 100 }

/-- The wrapper `post_init` yields for `solverBudget3` with
`history_size = 1`. -/
def awBudget3 : AndersonWrapper Unit ℚ ℚ :=
  { solver := solverBudget3, history_size := 1, beta := 1, ridge := 1,
    maxiter := 2, tol := 1 / 100 }

/-- `true` on the non-raising branch of construction, `false` when
`__post_init__` raises the configuration `ValueError`. -/
def exceptOk {E X : Type} : Except E X → Bool
  | Except.ok _ => true
  | Except.error _ => false

/-- The warm-up trace starts at its start point. -/
theorem run_updates_head (solver : IterativeSolver A S O) (args : A)
    (n : ℕ) (p : PyTree) (s : S) :
    ∃ t, (run_updates solver args n p s).1 = p :: t := by
  cases n <;> exact ⟨_, rfl⟩

/-- The warm-up trace of `n` updates holds `n + 1` iterates. -/
theorem run_updates_length (solver : IterativeSolver A S O) (args : A) :
    ∀ (n : ℕ) (p : PyTree) (s : S),
      (run_updates solver args n p s).1.length = n + 1
  | 0, _, _ => rfl
  | n + 1, p, s => by
      simp [run_updates, run_updates_length solver args n]

/-- The source's warm-up fold equals the spec-side recursion `run_updates`:
the fold's final accumulator is the final point/state pair, and the collected
list is the accumulated prefix followed by the trace after its start point. -/
theorem warmup_foldl (solver : IterativeSolver A S O) (args : A) :
    ∀ (l : List ℕ) (ps : PyTree × S) (acc : List PyTree),
      l.foldl
        (fun acc2 _ => (solver.update acc2.1.1 acc2.1.2 args,
          acc2.2 ++ [(solver.update acc2.1.1 acc2.1.2 args).1]))
        (ps, acc)
      = ((run_updates solver args l.length ps.1 ps.2).2,
         acc ++ (run_updates solver args l.length ps.1 ps.2).1.tail)
  | [], ps, acc => by simp [run_updates]
  | x :: xs, ps, acc => by
      have ih := warmup_foldl solver args xs (solver.update ps.1 ps.2 args)
        (acc ++ [(solver.update ps.1 ps.2 args).1])
      simp only [List.foldl_cons, List.length_cons]
      rw [show (run_updates solver args (xs.length + 1) ps.1 ps.2)
            = ((ps.1 :: (run_updates solver args xs.length
                (solver.update ps.1 ps.2 args).1
                (solver.update ps.1 ps.2 args).2).1),
               (run_updates solver args xs.length
                (solver.update ps.1 ps.2 args).1
                (solver.update ps.1 ps.2 args).2).2) from rfl]
      obtain ⟨t, ht⟩ := run_updates_head solver args xs.length
        (solver.update ps.1 ps.2 args).1 (solver.update ps.1 ps.2 args).2
      rw [ih, ht]
      simp

/-- `AndersonWrapper.init` (the source's fold) coincides with the spec-side
description `init_spec`. -/
theorem init_eq_init_spec (aw : AndersonWrapper A S O) (init_params : PyTree)
    (args : A) :
    AndersonWrapper.init aw init_params args
      = AndersonWrapper.init_spec aw init_params args := by
  simp only [AndersonWrapper.init, AndersonWrapper.init_spec]
  rw [warmup_foldl aw.solver args (List.range aw.history_size)
    (aw.solver.init init_params args) [(aw.solver.init init_params args).1]]
  rw [List.length_range]
  obtain ⟨t, ht⟩ := run_updates_head aw.solver args aw.history_size
    (aw.solver.init init_params args).1 (aw.solver.init init_params args).2
  rw [ht]
  simp

/-- C1: the code does NOT surface the `update_history` error. At the concrete
failing input below, the state returned by `AndersonWrapper.update` carries
`error = 5` — the inner solver state's error — while `update_history`, called
on exactly the arguments `update` passes it (the `init`-rebound extrapolated
point and the new residual), returns error `1`, the norm of the new residual.
The source computes the `update_history` error and discards it. -/
theorem C1_update_error_is_inner_solver_error :
    (AndersonWrapper.update norm1 awHalf [0] stHalf ()).2.error
      ≠ (update_history norm1 (stHalf.iter_num % awHalf.history_size)
          stHalf.params_history stHalf.residuals_history stHalf.residual_gram
          (adapter_init awHalf stHalf ()).1
          (tree_sub (adapter_next awHalf stHalf ()).1
            (adapter_init awHalf stHalf ()).1)).2.2.2 := by
  have h1 : (AndersonWrapper.update norm1 awHalf [0] stHalf ()).2.error = 5 := by
    norm_num [AndersonWrapper.update, awHalf, stHalf, solverHalf, anderson_step,
      solveLin, detL, detAux, addRidgeI, replaceCol, tree_weighted_sum, tree_add,
      tree_scalar_mul, tree_sub, tree_vdot, tree_zero_like, update_history, norm1,
      List.range_succ]
  have h2 : (update_history norm1 (stHalf.iter_num % awHalf.history_size)
      stHalf.params_history stHalf.residuals_history stHalf.residual_gram
      (adapter_init awHalf stHalf ()).1
      (tree_sub (adapter_next awHalf stHalf ()).1
        (adapter_init awHalf stHalf ()).1)).2.2.2 = 1 := by
    norm_num [update_history, adapter_init, adapter_next, extrapolated_of,
      awHalf, stHalf, solverHalf, anderson_step, solveLin, detL, detAux,
      addRidgeI, replaceCol, tree_weighted_sum, tree_add, tree_scalar_mul,
      tree_sub, tree_vdot, tree_zero_like, norm1, List.range_succ]
  rw [h1, h2]
  norm_num

/-- C2 counterexample: with the wrapped solver's `maxiter = 3` and
`history_size = 3` (so `maxiter ≤ history_size`, the case the claim says is
rejected at construction), `__post_init__` does not raise: the guard only
fires when `maxiter - history_size` is negative. -/
theorem C2_cex_equal_budget_constructs :
    exceptOk (AndersonWrapper.post_init solverBudget3 3 1 1) = true := by rfl

/-- C2 (amended): construction raises the configuration error iff the wrapped
solver's `maxiter` is strictly smaller than `history_size`; for every
`maxiter ≥ history_size` (equality included) construction succeeds. -/
theorem C2_guard_raises_iff_budget_lt_history (solver : IterativeSolver A S O)
    (history_size : ℕ) (beta ridge : ℚ) :
    exceptOk (AndersonWrapper.post_init solver history_size beta ridge) = true
      ↔ (history_size : ℤ) ≤ solver.maxiter := by
  by_cases h : (solver.maxiter - (history_size : ℤ)) < 0
  · simp only [AndersonWrapper.post_init, if_pos h, exceptOk]
    constructor
    · intro hh
      exact absurd hh (by simp)
    · intro hh
      omega
  · simp only [AndersonWrapper.post_init, if_neg h, exceptOk]
    constructor
    · intro _
      omega
    · intro _
      trivial

/-- C3: the iterate `update` writes into `params_history` at the circular
position, and the base point subtracted from `next_params` to form the
residual, are both the point returned by the wrapped solver's `init` on the
Anderson-extrapolated point (`adapter_init`), not the raw Anderson output. -/
theorem C3_history_write_uses_init_output (tree_l2_norm : PyTree → ℚ)
    (aw : AndersonWrapper A S O) (params : PyTree)
    (st : AndersonWrapperState S) (args : A) :
    (AndersonWrapper.update tree_l2_norm aw params st args).2.params_history
        = st.params_history.set (st.iter_num % aw.history_size)
            (adapter_init aw st args).1
      ∧ (AndersonWrapper.update tree_l2_norm aw params st args).2.residuals_history
        = st.residuals_history.set (st.iter_num % aw.history_size)
            (tree_sub (adapter_next aw st args).1 (adapter_init aw st args).1) :=
  ⟨rfl, rfl⟩

/-- C4 counterexample: with a wrapped solver whose `init` moves its input
point, the state computed by the code differs from the claim's literal step
sequence (`update_literal`, where the residual and the history write use the
raw Anderson-extrapolated point): the circular slot receives `[3]` (the
`init`-rebound point) rather than `[2]` (the raw extrapolation). -/
theorem C4_cex_literal_sequence_differs :
    (AndersonWrapper.update norm1 awShift [0] stShift ()).2.params_history
      ≠ (AndersonWrapper.update_literal norm1 awShift [0] stShift ()).2.params_history := by
  have h1 : (AndersonWrapper.update norm1 awShift [0] stShift ()).2.params_history
      = [[3], [10]] := by
    norm_num [AndersonWrapper.update, awShift, stShift, solverShift, anderson_step,
      solveLin, detL, detAux, addRidgeI, replaceCol, tree_weighted_sum, tree_add,
      tree_scalar_mul, tree_sub, tree_vdot, tree_zero_like, update_history, norm1,
      List.range_succ]
  have h2 : (AndersonWrapper.update_literal norm1 awShift [0] stShift ()).2.params_history
      = [[2], [10]] := by
    norm_num [AndersonWrapper.update_literal, awShift, stShift, solverShift,
      anderson_step, solveLin, detL, detAux, addRidgeI, replaceCol,
      tree_weighted_sum, tree_add, tree_scalar_mul, tree_sub, tree_vdot,
      tree_zero_like, update_history, norm1, List.range_succ]
  rw [h1, h2]
  norm_num

/-- C4 (amended): `update` performs exactly the claimed sequence — circular
position `iter_num mod history_size`, Anderson extrapolation over the current
history, one wrapped-solver iteration (`init` then `update`) from the
extrapolated point, residual and `update_history` taken at the point
`extrapolated` is rebound to by the inner solver's `init` (not the raw
Anderson output), returned point `next_params`, iteration counter `+1`, and
the fresh inner solver state. -/
theorem C4_update_sequence_amended (tree_l2_norm : PyTree → ℚ)
    (aw : AndersonWrapper A S O) (params : PyTree)
    (st : AndersonWrapperState S) (args : A) :
    (AndersonWrapper.update tree_l2_norm aw params st args).1
        = (adapter_next aw st args).1
      ∧ (AndersonWrapper.update tree_l2_norm aw params st args).2.iter_num
        = st.iter_num + 1
      ∧ (AndersonWrapper.update tree_l2_norm aw params st args).2.solver_state
        = (adapter_next aw st args).2
      ∧ (AndersonWrapper.update tree_l2_norm aw params st args).2.params_history
        = (update_history tree_l2_norm (st.iter_num % aw.history_size)
            st.params_history st.residuals_history st.residual_gram
            (adapter_init aw st args).1
            (tree_sub (adapter_next aw st args).1 (adapter_init aw st args).1)).1
      ∧ (AndersonWrapper.update tree_l2_norm aw params st args).2.residuals_history
        = (update_history tree_l2_norm (st.iter_num % aw.history_size)
            st.params_history st.residuals_history st.residual_gram
            (adapter_init aw st args).1
            (tree_sub (adapter_next aw st args).1 (adapter_init aw st args).1)).2.1
      ∧ (AndersonWrapper.update tree_l2_norm aw params st args).2.residual_gram
        = (update_history tree_l2_norm (st.iter_num % aw.history_size)
            st.params_history st.residuals_history st.residual_gram
            (adapter_init aw st args).1
            (tree_sub (adapter_next aw st args).1 (adapter_init aw st args).1)).2.2.1 :=
  ⟨rfl, rfl, rfl, rfl, rfl, rfl⟩

/-- C5: `init` calls the wrapped solver's `init` exactly once on the initial
guess, then its `update` exactly `history_size` times, collecting the
`history_size + 1` iterates in order (`run_updates`), builds the history via
the cold-start `build_history` path, and returns the most recent warmed-up
iterate with an `AndersonWrapperState` whose iteration counter is 0 — i.e.
the code equals the spec-side `init_spec`, whose collected trace has length
`history_size + 1`. -/
theorem C5_init_runs_warmup_and_builds_history (aw : AndersonWrapper A S O)
    (init_params : PyTree) (args : A) :
    AndersonWrapper.init aw init_params args
        = AndersonWrapper.init_spec aw init_params args
      ∧ (run_updates aw.solver args aw.history_size
          (aw.solver.init init_params args).1
          (aw.solver.init init_params args).2).1.length
        = aw.history_size + 1 :=
  ⟨init_eq_init_spec aw init_params args,
   run_updates_length aw.solver args aw.history_size
     (aw.solver.init init_params args).1 (aw.solver.init init_params args).2⟩

/-- C6: whenever construction succeeds, the wrapper's exposed `maxiter` is
the wrapped solver's `maxiter` minus `history_size`, and its exposed `tol` is
the wrapped solver's `tol` unchanged. -/
theorem C6_exposed_budget_and_tol (solver : IterativeSolver A S O)
    (history_size : ℕ) (beta ridge : ℚ) (aw : AndersonWrapper A S O)
    (h : AndersonWrapper.post_init solver history_size beta ridge
          = Except.ok aw) :
    aw.maxiter = solver.maxiter - history_size ∧ aw.tol = solver.tol := by
  simp only [AndersonWrapper.post_init] at h
  split at h
  · exact absurd h (by simp)
  · injection h with h2
    subst h2
    exact ⟨rfl, rfl⟩

/-- C6 witness: at `solverBudget3` (`maxiter = 3`, `tol = 1/100`) with
`history_size = 1`, construction yields `awBudget3`, whose `maxiter` is `2`
and whose `tol` is `1/100`. -/
theorem C6_exposed_budget_and_tol_witness :
    awBudget3.maxiter = solverBudget3.maxiter - (1 : ℕ)
      ∧ awBudget3.tol = solverBudget3.tol :=
  C6_exposed_budget_and_tol solverBudget3 1 1 1 awBudget3 rfl

/-- C7: two `update` calls on states that agree except possibly in
`solver_state`, with arbitrary (possibly different) `params` arguments and the
same extra arguments, return identical results: `update` reads neither
`params` nor the incoming `state.solver_state`. -/
theorem C7_update_ignores_params_and_solver_state (tree_l2_norm : PyTree → ℚ)
    (aw : AndersonWrapper A S O) (pa pb : PyTree)
    (st : AndersonWrapperState S) (ssa ssb : S) (args : A) :
    AndersonWrapper.update tree_l2_norm aw pa
        { st with solver_state := ssa } args
      = AndersonWrapper.update tree_l2_norm aw pb
          { st with solver_state := ssb } args :=
  rfl

/-- C8: every reachable state (the state `init` returns, followed by any
number of `update` calls) has exactly `history_size + 1` entries in
`params_history` and exactly `history_size` entries in `residuals_history`;
`update` overwrites one circular slot (`List.set`) and never changes the
lengths. -/
theorem C8_history_lengths_invariant (tree_l2_norm : PyTree → ℚ)
    (aw : AndersonWrapper A S O) (args : A) (st : AndersonWrapperState S)
    (h : Reachable tree_l2_norm aw args st) :
    st.params_history.length = aw.history_size + 1
      ∧ st.residuals_history.length = aw.history_size := by
  induction h with
  | init ip =>
      rw [init_eq_init_spec]
      simp only [AndersonWrapper.init_spec, build_history]
      refine ⟨by simp [run_updates_length], ?_⟩
      have hlen := run_updates_length aw.solver args aw.history_size
        (aw.solver.init ip args).1 (aw.solver.init ip args).2
      simp [List.length_zipWith, List.length_tail, hlen]
  | step p st hst ih =>
      simp only [AndersonWrapper.update, update_history]
      exact ⟨by simp [List.length_set, ih.1], by simp [List.length_set, ih.2]⟩

/-- C8 witness: for the concrete wrapper `awHalf` (`history_size = 1`), the
state reached by `init` at `[1]` followed by one `update` keeps
`params_history` at 2 entries and `residuals_history` at 1 entry. -/
theorem C8_history_lengths_invariant_witness :
    ((AndersonWrapper.update norm1 awHalf [0]
        (AndersonWrapper.init awHalf [1] ()).2 ()).2.params_history.length
      = awHalf.history_size + 1)
    ∧ ((AndersonWrapper.update norm1 awHalf [0]
        (AndersonWrapper.init awHalf [1] ()).2 ()).2.residuals_history.length
      = awHalf.history_size) :=
  C8_history_lengths_invariant norm1 awHalf () _
    (Reachable.step [0] _ (Reachable.init [1]))

/-- C9: `optimality_fun` returns exactly the wrapped solver's
`optimality_fun` at the same point with the same extra arguments. -/
theorem C9_optimality_fun_delegates (aw : AndersonWrapper A S O)
    (params : PyTree) (args : A) :
    AndersonWrapper.optimality_fun aw params args
      = aw.solver.optimality_fun params args :=
  rfl

/-- C10: `update` never hands back the state it received: the returned state
is a freshly constructed value (its iteration counter is the input's plus
one, so it differs from the input state). In this embedding states are
immutable values — `update` is a pure function of its input and the caller's
state is unchanged by construction; this theorem pins down the remaining
observable content of the claim, that each call produces a new state value. -/
theorem C10_update_returns_fresh_state (tree_l2_norm : PyTree → ℚ)
    (aw : AndersonWrapper A S O) (params : PyTree)
    (st : AndersonWrapperState S) (args : A) :
    (AndersonWrapper.update tree_l2_norm aw params st args).2 ≠ st := by
  intro hcontra
  have h2 := congrArg AndersonWrapperState.iter_num hcontra
  simp [AndersonWrapper.update] at h2
